import Mathlib

/-!
Shallow embedding of the command-execution and path-safety core of the
memvid-mcp server (sources: `src/roots.ts`, `src/types.ts`, `src/executor.ts`).

Strings are modelled by Lean `String`; the JavaScript string operations used
by the source (`replace(/\\/g,"/")`, `toLowerCase`, `includes`, `startsWith`,
`endsWith`, `slice`, `trim`, `join`) are given structural definitions over the
character list `String.data` so that every predicate is executable.
-/

namespace Memvid

/-- JS `path.replace(/\\/g, "/")`: character-wise replacement of every
backslash by a forward slash. -/
def unifySep (s : String) : String :=
  ⟨s.data.map fun c => if c = '\\' then '/' else c⟩

/-- JS `s.toLowerCase()` (ASCII fragment, which is all the source compares). -/
def lowerStr (s : String) : String :=
  ⟨s.data.map Char.toLower⟩

/-- Substring-at-some-position test on character lists. -/
def infixOfB (sub : List Char) : List Char → Bool
  | [] => sub.isEmpty
  | c :: t => sub.isPrefixOf (c :: t) || infixOfB sub t

/-- JS `s.includes(sub)`: substring occurrence test. -/
def strIncludes (s sub : String) : Bool :=
  infixOfB sub.data s.data

/-- JS `s.startsWith(pre)`. -/
def strStartsWith (s pre : String) : Bool :=
  pre.data.isPrefixOf s.data

/-- JS `s.endsWith(suf)`. -/
def strEndsWith (s suf : String) : Bool :=
  suf.data.isSuffixOf s.data

/-- JS `s.slice(0, -1)`: drop the last character. -/
def dropLastChar (s : String) : String :=
  ⟨s.data.dropLast⟩

/-- JS `s.slice(n)`: drop the first `n` characters. -/
def dropChars (s : String) (n : Nat) : String :=
  ⟨s.data.drop n⟩

/-- JS whitespace test for `trim` (ASCII fragment). -/
def isWS (c : Char) : Bool :=
  c = ' ' || c = '\t' || c = '\n' || c = '\r'

/-- JS `s.trim()`. -/
def trimStr (s : String) : String :=
  ⟨((s.data.dropWhile isWS).reverse.dropWhile isWS).reverse⟩

/-- JS `chunks.join("")`. -/
def joinAll (xs : List String) : String :=
  String.join xs

/-- JS `xs.join(",")`. -/
def joinComma (xs : List String) : String :=
  String.intercalate "," xs

/-- JS `xs.join(" ")`. -/
def joinSpace (xs : List String) : String :=
  String.intercalate " " xs

/-- The regex `^[A-Za-z]:` of `normalizePath` / `isWindowsAbsolutePath`:
a drive letter followed by a colon at the start of the string. -/
def startsWithDrive (s : String) : Bool :=
  match s.data with
  | c :: ':' :: _ => c.isAlpha
  | _ => false

/-- The regex `^\/[A-Za-z]:` used by `isLinuxPath` and `uriToPath`:
a slash, then a drive letter, then a colon. -/
def startsWithSlashDrive (s : String) : Bool :=
  match s.data with
  | '/' :: c :: ':' :: _ => c.isAlpha
  | _ => false

/-- The regex `^[A-Za-z]:[/\\]` of `isWindowsAbsolutePath` in `src/types.ts`. -/
def isWindowsAbsolutePath (s : String) : Bool :=
  match s.data with
  | c :: ':' :: sep :: _ => c.isAlpha && (sep = '/' || sep = '\\')
  | _ => false

/-- `isLinuxPath` from `src/types.ts`: starts with `/` and is not a
`/C:`-style WSL-mangled Windows path. -/
def isLinuxPath (path : String) : Bool :=
  if strStartsWith path "/" then
    if startsWithSlashDrive path then false else true
  else false

-- ===========================================================================
-- Root Registry (`src/roots.ts`)
-- ===========================================================================

/-- A client-declared permitted directory subtree (`Root` in `src/roots.ts`). -/
structure Root where
  uri : String
  name : Option String := none
deriving Repr, DecidableEq

/-- The process-wide `RootsState` singleton of `src/roots.ts`. -/
structure RootsState where
  roots : List Root
  initialized : Bool
  supported : Bool
deriving Repr, DecidableEq

/-- `uriToPath` from `src/roots.ts`: strip a `file://` scheme, strip the
leading slash of `/C:`-style Windows URIs, and unify separators. -/
def uriToPath (uri : String) : String :=
  if !(strStartsWith uri "file://") then uri
  else
    let path := dropChars uri 7
    let path := if startsWithSlashDrive path then dropChars path 1 else path
    unifySep path

/-- `normalizePath` from `src/roots.ts`. `win32` models
`process.platform === "win32"` of the host running the adapter. -/
def normalizePath (win32 : Bool) (path : String) : String :=
  let normalized := unifySep path
  let normalized :=
    if strEndsWith normalized "/" && decide (1 < normalized.data.length) then
      dropLastChar normalized
    else normalized
  if win32 || startsWithDrive normalized then lowerStr normalized else normalized

/-- `isPathWithinRoots` from `src/roots.ts`. -/
def isPathWithinRoots (win32 : Bool) (st : RootsState) (path : String) : Bool :=
  if !st.initialized || !st.supported then true
  else if st.roots.length = 0 then true
  else
    let normalizedPath := normalizePath win32 path
    st.roots.any fun root =>
      let rootPath := normalizePath win32 (uriToPath root.uri)
      normalizedPath = rootPath || strStartsWith normalizedPath (rootPath ++ "/")

-- ===========================================================================
-- Path Validator (`src/types.ts`)
-- ===========================================================================

/-- The Linux denylist of `src/types.ts`. -/
def BLOCKED_LINUX_PATHS : List String :=
  ["/etc/", "/proc/", "/sys/", "/var/log/", "/root/", "/.ssh/"]

/-- The Windows denylist of `src/types.ts`. -/
def BLOCKED_WINDOWS_PATHS : List String :=
  ["\\windows\\", "\\system32\\", "/windows/", "/system32/"]

/-- `isPathSafe` from `src/types.ts`: traversal check, denylists, then
root containment. -/
def isPathSafe (win32 : Bool) (st : RootsState) (path : String) : Bool :=
  let normalized := unifySep path
  if strIncludes normalized ".." then false
  else
    let lowerPath := lowerStr normalized
    if BLOCKED_LINUX_PATHS.any fun p => strIncludes lowerPath p then false
    else if BLOCKED_WINDOWS_PATHS.any fun p => strIncludes lowerPath p then false
    else if !isPathWithinRoots win32 st path then false
    else true

-- ===========================================================================
-- Schema boundary (`filePathSchema` in `src/types.ts`)
-- ===========================================================================

/-- The fixed rejection message of the `isPathSafe` refinement on
`filePathSchema` in `src/types.ts`. -/
def unsafePathMessage : String :=
  "Path contains unsafe patterns (path traversal or system paths not allowed)"

/-- The fixed rejection message of the `isLinuxPath` refinement on
`filePathSchema` in `src/types.ts`. -/
def linuxPathMessage : String :=
  "This looks like a Linux path but memvid.exe runs on Windows. " ++
  "Use Windows paths like C:\\Tools\\memvid-data\\file.mv2"

/-- The rejection message of the `min(1)` length check on `filePathSchema`. -/
def emptyPathMessage : String :=
  "File path is required"

/-- The issue list produced by parsing a string with `filePathSchema`
(`src/types.ts`): the `min(1)` length check and the two refinements each
contribute their fixed message when they fail (zod runs every refinement and
collects all issues). An empty list means the path is accepted. -/
def filePathSchemaIssues (win32 : Bool) (st : RootsState) (p : String) : List String :=
  (if p.length < 1 then [emptyPathMessage] else []) ++
  (if isLinuxPath p then [linuxPathMessage] else []) ++
  (if !isPathSafe win32 st p then [unsafePathMessage] else [])

-- ===========================================================================
-- Process Executor (`src/executor.ts`)
-- ===========================================================================

/-- `MAX_RETRIES` from `src/executor.ts`. -/
def MAX_RETRIES : Nat := 2

/-- The payload stored in `CliResult.data` by `executeOnce`: either the raw
(trimmed) standard-output text, or the structured value `JSON.parse`
produced from that text (identified here by its source text). -/
inductive Payload where
  | text (s : String)
  | json (s : String)
deriving Repr, DecidableEq

/-- `CliResult` from `src/types.ts`. Optional fields are `Option`s (or a
defaulted `Bool` for the truthiness-tested `isSpawnError`); `data` is
`unknown` in the source, so the payload type is a parameter. -/
structure CliResult (α : Type) where
  success : Bool
  data : Option α := none
  error : Option String := none
  exitCode : Int
  stderr : Option String := none
  isSpawnError : Bool := false
  spawnErrorCode : Option String := none
deriving Repr, DecidableEq

/-- How one `executeOnce` attempt resolved: the child process closed with an
exit code (possibly `null`) and buffered stdout/stderr chunks, the timeout
fired first, or spawning failed with an error message and OS error code. -/
inductive AttemptOutcome where
  | completed (code : Option Int) (out err : List String)
  | timedOut
  | spawnFailed (msg : String) (errCode : Option String)
deriving Repr, DecidableEq

/-- The `CliResult` that `executeOnce` in `src/executor.ts` resolves with,
as a function of how the attempt went. `jp` models `JSON.parse`
succeeding on a string (the parsed value is `Payload.json` of that string);
`memvidPath` models the `MEMVID_PATH` constant; `timeout` is the configured
timeout used in the timeout message. -/
def executeOnceResult (jp : String → Bool) (memvidPath : String) (timeout : Nat)
    (fullArgs : List String) (command : String) (skipJson : Bool) :
    AttemptOutcome → CliResult Payload
  | .timedOut =>
    { success := false
      error := some ("Command timed out after " ++ toString timeout ++ "ms: memvid "
        ++ joinSpace fullArgs)
      exitCode := -1 }
  | .spawnFailed msg errCode =>
    let hint :=
      if errCode = some "ENOENT" then
        "memvid binary not found at \"" ++ memvidPath ++ "\". Set MEMVID_PATH " ++
        "environment variable to the correct path, or ensure \"memvid\" is in " ++
        "your system PATH."
      else if errCode = some "EACCES" then
        "Permission denied running \"" ++ memvidPath ++ "\". Check file permissions."
      else
        "Is MEMVID_PATH set correctly? Current: " ++ memvidPath
    { success := false
      error := some ("Failed to spawn memvid: " ++ msg ++ ". " ++ hint)
      exitCode := -1
      isSpawnError := true
      spawnErrorCode := errCode }
  | .completed code out err =>
    let stdoutStr := trimStr (joinAll out)
    let stderrStr := trimStr (joinAll err)
    if code = some 0 then
      if skipJson then
        { success := true, data := some (.text stdoutStr), exitCode := 0 }
      else if jp stdoutStr then
        { success := true, data := some (.json stdoutStr), exitCode := 0 }
      else
        { success := true, data := some (.text stdoutStr), exitCode := 0 }
    else
      let rawError := if stderrStr ≠ "" then stderrStr else stdoutStr
      let errorMsg :=
        if rawError ≠ "" then rawError
        else
          "memvid " ++ command ++ " failed with exit code " ++
          (match code with | some n => toString n | none => "null") ++
          ". Check that the file exists and the command arguments are correct."
      { success := false
        error := some errorMsg
        stderr := some stderrStr
        exitCode := code.getD (-1) }

/-- The retry loop of `executeMemvid` in `src/executor.ts`:
`for (attempt = 0; attempt <= MAX_RETRIES; attempt++)`. `f attempt` is the
result of the attempt; `rem` is `MAX_RETRIES - attempt`, the number of
iterations still permitted after the current one. The first component of
the result counts the attempts performed (instrumentation); the second is
the returned `CliResult`. -/
def runAttempts (f : Nat → CliResult Payload) (attempt : Nat) :
    Nat → Nat × CliResult Payload
  | 0 => (attempt + 1, f attempt)
  | rem + 1 =>
    let r := f attempt
    if r.success || !r.isSpawnError then (attempt + 1, r)
    else runAttempts f (attempt + 1) rem

/-- The argument vector actually passed to the child by `executeMemvid`:
the caller's arguments plus `--json` (unless suppressed) plus `--verbose`
(when `MEMVID_VERBOSE` is set). -/
def fullArgsOf (args : List String) (skipJson verbose : Bool) : List String :=
  args ++ (if !skipJson then ["--json"] else []) ++
    (if verbose then ["--verbose"] else [])

/-- The `command` local of `executeMemvid`: `args[0] || "unknown"`. -/
def commandOf (args : List String) : String :=
  match args.head? with
  | some s => if s = "" then "unknown" else s
  | none => "unknown"

/-- `executeMemvid` from `src/executor.ts`, instrumented with the attempt
count. `verbose` models `MEMVID_VERBOSE`; `outcomes i` is how the `i`-th
spawn attempt resolved. -/
def executeMemvidRun (jp : String → Bool) (memvidPath : String) (verbose : Bool)
    (outcomes : Nat → AttemptOutcome) (args : List String) (timeout : Nat)
    (skipJson : Bool) : Nat × CliResult Payload :=
  runAttempts
    (fun i => executeOnceResult jp memvidPath timeout
      (fullArgsOf args skipJson verbose) (commandOf args) skipJson (outcomes i))
    0 MAX_RETRIES

/-- The `ExecutionResult` invariant of the spec: exactly one of
"payload present with `success=true`" or "error message present with
`success=false`" holds. -/
def exactlyOne {α : Type} (r : CliResult α) : Prop :=
  ((r.data.isSome = true ∧ r.success = true) ∨
    (r.error.isSome = true ∧ r.success = false)) ∧
  ¬((r.data.isSome = true ∧ r.success = true) ∧
    (r.error.isSome = true ∧ r.success = false))

-- ===========================================================================
-- Argument Builder (`buildArgs` in `src/executor.ts`)
-- ===========================================================================

/-- A JavaScript option value as consumed by `buildArgs`: `null`/`undefined`,
a boolean, an array (whose elements are modelled by their string forms), a
number, or any other scalar modelled by its `String(value)` form. -/
inductive OptValue where
  | nullv
  | bool (b : Bool)
  | arr (xs : List String)
  | num (n : Int)
  | scalar (s : String)
deriving Repr, DecidableEq

/-- The flag token `--${key.replace(/_/g, "-")}` of `buildArgs`. -/
def flagOf (key : String) : String :=
  "--" ++ String.mk (key.data.map fun c => if c = '_' then '-' else c)

/-- The loop body of `buildArgs`: what one `[key, value]` entry appends. -/
def buildArgsStep (args : List String) (kv : String × OptValue) : List String :=
  match kv.2 with
  | .nullv => args
  | .bool b => if b then args ++ [flagOf kv.1] else args
  | .arr xs => args ++ [flagOf kv.1, joinComma xs]
  | .num n => args ++ [flagOf kv.1, toString n]
  | .scalar s => args ++ [flagOf kv.1, s]

/-- `buildArgs` from `src/executor.ts`. The option map is a list of
key/value entries in JS object iteration order. -/
def buildArgs (baseArgs : List String) (options : List (String × OptValue)) :
    List String :=
  options.foldl buildArgsStep baseArgs

/-- What one option entry contributes to the argument vector, stated per
case as in the Argument Builder contract of the spec. -/
def optContrib (kv : String × OptValue) : List String :=
  match kv.2 with
  | .nullv => []
  | .bool true => [flagOf kv.1]
  | .bool false => []
  | .arr xs => [flagOf kv.1, joinComma xs]
  | .num n => [flagOf kv.1, toString n]
  | .scalar s => [flagOf kv.1, s]

/-- The concatenated contributions of every option entry, in map iteration
order. -/
def contribAll (opts : List (String × OptValue)) : List String :=
  (opts.map optContrib).flatten

-- ===========================================================================
-- Result Formatter (`formatToolResult` in `src/types.ts`)
-- ===========================================================================

/-- `CHARACTER_LIMIT` from `src/types.ts`. -/
def CHARACTER_LIMIT : Nat := 50000

/-- The `unknown` payload as consumed by `formatToolResult`: either a JS
string (used directly), or a non-string value carried together with its
`JSON.stringify(value, null, 2)` form (`none` when stringification yields
`undefined`). -/
inductive JsValue where
  | str (s : String)
  | other (stringified : Option String)
deriving Repr, DecidableEq

/-- The `text` local of `formatToolResult`:
`typeof data === "string" ? data : JSON.stringify(data, null, 2)`. -/
def stringifyJs : JsValue → Option String
  | .str s => some s
  | .other os => os

/-- An MCP tool result: the texts of the `content` blocks plus the
`isError` flag. -/
structure ToolResult where
  content : List String
  isError : Bool
deriving Repr, DecidableEq

/-- The no-output warning text of `formatToolResult` in `src/types.ts`. -/
def noOutputWarning : String :=
  "Warning: memvid.exe returned no output. This usually means:\n" ++
  "1. The input file/path was not found (check that the path exists on Windows)\n" ++
  "2. The .mv2 file is empty or corrupted (try memvid_verify)\n" ++
  "3. The query returned no results\n\n" ++
  "Tip: memvid.exe runs on Windows — all paths must be Windows-style " ++
  "(e.g., C:\\Tools\\memvid-data\\file.mv2)."

/-- `getActionableHint` from `src/types.ts`. -/
def getActionableHint (errorMsg : String) : String :=
  let lower := lowerStr errorMsg
  if strIncludes lower "not found" || strIncludes lower "no such file" then
    "\n\nHint: Check that the file path exists on Windows. " ++
    "Use memvid_create to create a new .mv2 file."
  else if strIncludes lower "permission" || strIncludes lower "access denied" then
    "\n\nHint: Check file permissions. The file may be locked by another process."
  else if strIncludes lower "corrupt" || strIncludes lower "integrity" then
    "\n\nHint: Try memvid_doctor to diagnose and repair the file."
  else if strIncludes lower "timeout" then
    "\n\nHint: The operation timed out. Try with a smaller dataset or fewer files."
  else ""

/-- `formatToolResult` from `src/types.ts`. -/
def formatToolResult (r : CliResult JsValue) : ToolResult :=
  if r.success then
    let textOpt : Option String :=
      match r.data with
      | some v => stringifyJs v
      | none => none
    match textOpt with
    | none => { content := [noOutputWarning], isError := true }
    | some text =>
      if text = "" || text = "null" || text = "undefined" || trimStr text = "" then
        { content := [noOutputWarning], isError := true }
      else if CHARACTER_LIMIT < text.data.length then
        let truncated : String := ⟨text.data.take CHARACTER_LIMIT⟩
        { content := [truncated ++ "\n\n[TRUNCATED: Response exceeded " ++
            toString CHARACTER_LIMIT ++ " characters. " ++
            "Use more specific queries or filters to reduce result size.]"]
          isError := false }
      else
        { content := [text], isError := false }
  else
    let errorMsg :=
      match r.stderr with
      | some s =>
        if s ≠ "" then s
        else match r.error with
          | some e => if e ≠ "" then e else "Unknown error"
          | none => "Unknown error"
      | none => match r.error with
        | some e => if e ≠ "" then e else "Unknown error"
        | none => "Unknown error"
    { content := ["Error: " ++ errorMsg ++ getActionableHint errorMsg]
      isError := true }

-- ===========================================================================
-- Theorems
-- ===========================================================================

/-- C1: for every input string path, if the Root Registry state has
`initialized=false`, or `supported=false`, or the stored root list is empty,
then `isPathWithinRoots path` returns true. -/
theorem unrestricted_registry_passes_all (win32 : Bool) (st : RootsState)
    (path : String)
    (h : st.initialized = false ∨ st.supported = false ∨ st.roots = []) :
    isPathWithinRoots win32 st path = true := by
  rcases h with h | h | h <;> simp [isPathWithinRoots, h]

/-- Witness for C1 at an uninitialized, unsupported, empty registry. -/
theorem unrestricted_registry_witness :
    isPathWithinRoots false ⟨[], false, false⟩ "C:\\proj\\a.mv2" = true :=
  unrestricted_registry_passes_all false ⟨[], false, false⟩ "C:\\proj\\a.mv2"
    (Or.inl rfl)

/-- C2: every path whose separator-unified form contains `..` anywhere is
rejected by `isPathSafe`, regardless of the Root Registry state. -/
theorem traversal_always_rejected (win32 : Bool) (st : RootsState) (path : String)
    (h : strIncludes (unifySep path) ".." = true) :
    isPathSafe win32 st path = false := by
  simp [isPathSafe, h]

/-- Witness for C2 on a concrete traversal path. -/
theorem traversal_witness :
    strIncludes (unifySep "C:\\proj\\..\\etc\\x") ".." = true ∧
    isPathSafe false ⟨[], true, true⟩ "C:\\proj\\..\\etc\\x" = false :=
  ⟨by decide,
   traversal_always_rejected false ⟨[], true, true⟩ "C:\\proj\\..\\etc\\x"
     (by decide)⟩

/-- C3: every path whose lower-cased, separator-unified form contains a
denylisted system-directory fragment is rejected by `isPathSafe`, for every
Root Registry state — in particular even for states where
`isPathWithinRoots` returns true. -/
theorem blocked_fragment_rejected (win32 : Bool) (st : RootsState) (path : String)
    (h : (BLOCKED_LINUX_PATHS.any fun b =>
            strIncludes (lowerStr (unifySep path)) b) = true ∨
         (BLOCKED_WINDOWS_PATHS.any fun b =>
            strIncludes (lowerStr (unifySep path)) b) = true) :
    isPathSafe win32 st path = false := by
  cases htr : strIncludes (unifySep path) ".." with
  | true => simp [isPathSafe, htr]
  | false => rcases h with h | h <;> simp [isPathSafe, htr, h]

/-- Witness for C3 on `/etc/passwd` against a registry whose containment
check passes everything. -/
theorem blocked_fragment_witness :
    (BLOCKED_LINUX_PATHS.any fun b =>
      strIncludes (lowerStr (unifySep "/etc/passwd")) b) = true ∧
    isPathWithinRoots false ⟨[], false, false⟩ "/etc/passwd" = true ∧
    isPathSafe false ⟨[], false, false⟩ "/etc/passwd" = false :=
  ⟨by decide, by decide,
   blocked_fragment_rejected false ⟨[], false, false⟩ "/etc/passwd"
     (Or.inl (by decide))⟩

/-- C4: with the registry initialized, supported, and holding a non-empty
root list (on a non-Windows host, where the code lower-cases exactly the
drive-letter-qualified paths), `isPathWithinRoots P` is true iff some stored
root `R` satisfies, after normalization: `P = R`, or `P` begins with `R`
followed by `/`. -/
theorem within_roots_iff_descendant (st : RootsState) (path : String)
    (hinit : st.initialized = true) (hsupp : st.supported = true)
    (hne : st.roots ≠ []) :
    isPathWithinRoots false st path = true ↔
      ∃ r ∈ st.roots,
        normalizePath false path = normalizePath false (uriToPath r.uri) ∨
        strStartsWith (normalizePath false path)
          (normalizePath false (uriToPath r.uri) ++ "/") = true := by
  have hlen : ¬(st.roots.length = 0) := by
    simpa [List.length_eq_zero] using hne
  simp [isPathWithinRoots, hinit, hsupp, hlen, List.any_eq_true,
    Bool.or_eq_true, decide_eq_true_eq]

/-- Witness for C4: a path strictly inside the single configured root is
accepted. -/
theorem within_roots_iff_witness :
    isPathWithinRoots false ⟨[⟨"file:///C:/proj", none⟩], true, true⟩
      "C:\\proj\\f.mv2" = true :=
  (within_roots_iff_descendant ⟨[⟨"file:///C:/proj", none⟩], true, true⟩
      "C:\\proj\\f.mv2" rfl rfl (by decide)).mpr
    ⟨⟨"file:///C:/proj", none⟩, by decide, Or.inr (by decide)⟩

/-- A spawn-failure attempt resolves with `success=false` and
`isSpawnError=true`. -/
theorem spawnFailed_flags (jp : String → Bool) (mp : String) (t : Nat)
    (fa : List String) (cmd : String) (sj : Bool) (m : String)
    (c : Option String) :
    (executeOnceResult jp mp t fa cmd sj (.spawnFailed m c)).success = false ∧
    (executeOnceResult jp mp t fa cmd sj (.spawnFailed m c)).isSpawnError = true := by
  simp [executeOnceResult]

/-- A completed attempt never carries the spawn-error flag. -/
theorem completed_not_spawnError (jp : String → Bool) (mp : String) (t : Nat)
    (fa : List String) (cmd : String) (sj : Bool) (c : Option Int)
    (out err : List String) :
    (executeOnceResult jp mp t fa cmd sj (.completed c out err)).isSpawnError
      = false := by
  simp only [executeOnceResult]
  split_ifs <;> rfl

/-- A timed-out attempt never carries the spawn-error flag. -/
theorem timedOut_not_spawnError (jp : String → Bool) (mp : String) (t : Nat)
    (fa : List String) (cmd : String) (sj : Bool) :
    (executeOnceResult jp mp t fa cmd sj .timedOut).isSpawnError = false := rfl

/-- Unfolding of the retry loop at the configured bound. -/
theorem runAttempts_two (f : Nat → CliResult Payload) :
    runAttempts f 0 2 =
      if (f 0).success || !(f 0).isSpawnError then (1, f 0)
      else if (f 1).success || !(f 1).isSpawnError then (2, f 1)
      else (3, f 2) := rfl

/-- C5: `executeMemvid` retries only spawn failures. When every attempt is a
spawn failure it performs exactly `1 + MAX_RETRIES = 3` attempts and returns
the last spawn-failure result (with `success=false`); when the first attempt
completes (any exit code, hence also non-zero exit and success) or times
out, it returns that result after exactly one attempt. -/
theorem executor_retry_policy (jp : String → Bool) (mp : String) (vb : Bool)
    (oc : Nat → AttemptOutcome) (args : List String) (t : Nat) (sj : Bool) :
    ((∀ i, i ≤ MAX_RETRIES → ∃ m c, oc i = AttemptOutcome.spawnFailed m c) →
      executeMemvidRun jp mp vb oc args t sj =
        (1 + MAX_RETRIES,
          executeOnceResult jp mp t (fullArgsOf args sj vb) (commandOf args) sj
            (oc MAX_RETRIES)) ∧
      (executeMemvidRun jp mp vb oc args t sj).2.success = false ∧
      (executeMemvidRun jp mp vb oc args t sj).2.isSpawnError = true) ∧
    (((∃ c out err, oc 0 = AttemptOutcome.completed c out err) ∨
        oc 0 = AttemptOutcome.timedOut) →
      executeMemvidRun jp mp vb oc args t sj =
        (1, executeOnceResult jp mp t (fullArgsOf args sj vb) (commandOf args) sj
          (oc 0))) := by
  constructor
  · intro h
    obtain ⟨m0, c0, h0⟩ := h 0 (by decide)
    obtain ⟨m1, c1, h1⟩ := h 1 (by decide)
    obtain ⟨m2, c2, h2⟩ := h 2 (by decide)
    have heq : executeMemvidRun jp mp vb oc args t sj =
        (1 + MAX_RETRIES,
          executeOnceResult jp mp t (fullArgsOf args sj vb) (commandOf args) sj
            (oc MAX_RETRIES)) := by
      show runAttempts _ 0 2 = _
      rw [runAttempts_two]
      simp [h0, h1, h2, executeOnceResult, MAX_RETRIES]
    refine ⟨heq, ?_, ?_⟩ <;> rw [heq] <;> simp [h2, executeOnceResult, MAX_RETRIES]
  · intro h
    have hns : (executeOnceResult jp mp t (fullArgsOf args sj vb) (commandOf args)
        sj (oc 0)).isSpawnError = false := by
      rcases h with ⟨c, out, err, h0⟩ | h0 <;> rw [h0]
      · exact completed_not_spawnError _ _ _ _ _ _ _ _ _
      · exact timedOut_not_spawnError _ _ _ _ _ _
    show runAttempts _ 0 2 = _
    rw [runAttempts_two]
    simp [hns]

/-- Witness for C5: three ENOENT spawn failures yield exactly three attempts
and a spawn-failure result. -/
theorem executor_retry_witness :
    (executeMemvidRun (fun _ => false) "memvid" false
      (fun _ => AttemptOutcome.spawnFailed "spawn ENOENT" (some "ENOENT"))
      ["search"] 120000 false).1 = 3 ∧
    (executeMemvidRun (fun _ => false) "memvid" false
      (fun _ => AttemptOutcome.spawnFailed "spawn ENOENT" (some "ENOENT"))
      ["search"] 120000 false).2.success = false ∧
    (executeMemvidRun (fun _ => false) "memvid" false
      (fun _ => AttemptOutcome.spawnFailed "spawn ENOENT" (some "ENOENT"))
      ["search"] 120000 false).2.isSpawnError = true := by
  have h := (executor_retry_policy (fun _ => false) "memvid" false
    (fun _ => AttemptOutcome.spawnFailed "spawn ENOENT" (some "ENOENT"))
    ["search"] 120000 false).1
    (fun i _ => ⟨"spawn ENOENT", some "ENOENT", rfl⟩)
  exact ⟨by rw [h.1]; rfl, h.2.1, h.2.2⟩

/-- C6: a zero-exit attempt with structured-output parsing requested whose
trimmed standard output fails to parse as JSON still succeeds, with the raw
trimmed text as the payload (and no error message). -/
theorem json_parse_fallback (jp : String → Bool) (mp : String) (t : Nat)
    (fa : List String) (cmd : String) (out err : List String)
    (h : jp (trimStr (joinAll out)) = false) :
    executeOnceResult jp mp t fa cmd false (.completed (some 0) out err) =
      { success := true, data := some (Payload.text (trimStr (joinAll out))),
        exitCode := 0 } := by
  simp [executeOnceResult, h]

/-- Witness for C6: standard output `not json` is returned verbatim as a
successful payload. -/
theorem json_parse_fallback_witness :
    executeOnceResult (fun _ => false) "memvid" 120000 ["stats", "--json"]
      "stats" false (.completed (some 0) ["not ", "json"] []) =
      { success := true, data := some (Payload.text "not json"),
        exitCode := 0 } := by
  rw [json_parse_fallback (fun _ => false) "memvid" 120000 ["stats", "--json"]
    "stats" ["not ", "json"] [] rfl]
  decide

/-- Every single-attempt result satisfies the exactly-one invariant. -/
theorem exactlyOne_once (jp : String → Bool) (mp : String) (t : Nat)
    (fa : List String) (cmd : String) (sj : Bool) (o : AttemptOutcome) :
    exactlyOne (executeOnceResult jp mp t fa cmd sj o) := by
  cases o with
  | timedOut => simp [executeOnceResult, exactlyOne]
  | spawnFailed m c => simp [executeOnceResult, exactlyOne]
  | completed code out err =>
    simp only [executeOnceResult]
    split_ifs <;> simp [exactlyOne]

/-- The retry loop returns the result of one of the attempts. -/
theorem runAttempts_result_is_attempt (f : Nat → CliResult Payload) :
    ∀ (rem a : Nat), ∃ i, (runAttempts f a rem).2 = f i
  | 0, a => ⟨a, rfl⟩
  | rem + 1, a => by
    by_cases h : ((f a).success || !(f a).isSpawnError) = true
    · exact ⟨a, by simp [runAttempts, h]⟩
    · obtain ⟨i, hi⟩ := runAttempts_result_is_attempt f rem (a + 1)
      exact ⟨i, by simp [runAttempts, h, hi]⟩

/-- C7: every result produced by the executor — by a single attempt and by
the retrying `executeMemvid` — has exactly one of a payload with
`success=true` or an error message with `success=false`. -/
theorem result_exactly_one_invariant :
    (∀ (jp : String → Bool) (mp : String) (t : Nat) (fa : List String)
        (cmd : String) (sj : Bool) (o : AttemptOutcome),
        exactlyOne (executeOnceResult jp mp t fa cmd sj o)) ∧
    (∀ (jp : String → Bool) (mp : String) (vb : Bool)
        (oc : Nat → AttemptOutcome) (args : List String) (t : Nat) (sj : Bool),
        exactlyOne (executeMemvidRun jp mp vb oc args t sj).2) := by
  refine ⟨exactlyOne_once, ?_⟩
  intro jp mp vb oc args t sj
  obtain ⟨i, hi⟩ := runAttempts_result_is_attempt
    (fun i => executeOnceResult jp mp t (fullArgsOf args sj vb) (commandOf args)
      sj (oc i)) MAX_RETRIES 0
  show exactlyOne (runAttempts _ 0 MAX_RETRIES).2
  rw [hi]
  exact exactlyOne_once jp mp t _ _ sj (oc i)

/-- One loop iteration of `buildArgs` appends exactly the entry's
contribution. -/
theorem buildArgsStep_eq (args : List String) (kv : String × OptValue) :
    buildArgsStep args kv = args ++ optContrib kv := by
  rcases kv with ⟨k, v⟩
  cases v with
  | nullv => simp [buildArgsStep, optContrib]
  | bool b => cases b <;> simp [buildArgsStep, optContrib]
  | arr xs => simp [buildArgsStep, optContrib]
  | num n => simp [buildArgsStep, optContrib]
  | scalar s => simp [buildArgsStep, optContrib]

/-- `buildArgs` is the base vector followed by the per-entry contributions. -/
theorem buildArgs_eq_contrib (opts : List (String × OptValue)) :
    ∀ base, buildArgs base opts = base ++ contribAll opts := by
  induction opts with
  | nil => intro base; simp [buildArgs, contribAll]
  | cons kv rest ih =>
    intro base
    have hstep : buildArgs base (kv :: rest) =
        buildArgs (buildArgsStep base kv) rest := rfl
    rw [hstep, ih, buildArgsStep_eq]
    simp [contribAll]

/-- C8: `buildArgs` appends, after the base arguments and in map iteration
order, nothing for null/undefined keys, a single kebab-cased flag for
boolean true, nothing for boolean false, the flag plus one comma-joined
value for an array, and the flag plus the string form for any other scalar;
in particular the `{recursive: true, limit: 5, tags: ["a","b"]}` example
maps to the stated vector. -/
theorem buildArgs_contract :
    (∀ (base : List String) (opts : List (String × OptValue)),
      buildArgs base opts = base ++ contribAll opts) ∧
    (∀ (k : String), optContrib (k, OptValue.nullv) = [] ∧
      optContrib (k, OptValue.bool true) = [flagOf k] ∧
      optContrib (k, OptValue.bool false) = [] ∧
      (∀ xs, optContrib (k, OptValue.arr xs) = [flagOf k, joinComma xs]) ∧
      (∀ n, optContrib (k, OptValue.num n) = [flagOf k, toString n]) ∧
      (∀ s, optContrib (k, OptValue.scalar s) = [flagOf k, s])) ∧
    buildArgs ["put", "file.ext"]
      [("recursive", OptValue.bool true), ("limit", OptValue.num 5),
        ("tags", OptValue.arr ["a", "b"])] =
      ["put", "file.ext", "--recursive", "--limit", "5", "--tags", "a,b"] := by
  refine ⟨fun base opts => buildArgs_eq_contrib opts base,
    fun k => ⟨rfl, rfl, rfl, fun xs => rfl, fun n => rfl, fun s => rfl⟩, ?_⟩
  decide

/-- C9 (counterexample): inputs failing each of the three categories —
traversal, denylisted system directory, outside the configured roots —
all produce the identical single rejection message at the schema boundary,
so the three categories are not distinguished. -/
theorem schema_rejection_not_distinct :
    strIncludes (unifySep "C:\\data\\..\\x") ".." = true ∧
    strIncludes (unifySep "C:\\Windows\\foo") ".." = false ∧
    (BLOCKED_WINDOWS_PATHS.any fun b =>
      strIncludes (lowerStr (unifySep "C:\\Windows\\foo")) b) = true ∧
    strIncludes (unifySep "C:\\other\\f.mv2") ".." = false ∧
    (BLOCKED_LINUX_PATHS.any fun b =>
      strIncludes (lowerStr (unifySep "C:\\other\\f.mv2")) b) = false ∧
    (BLOCKED_WINDOWS_PATHS.any fun b =>
      strIncludes (lowerStr (unifySep "C:\\other\\f.mv2")) b) = false ∧
    isPathWithinRoots false ⟨[⟨"file:///C:/proj", none⟩], true, true⟩
      "C:\\other\\f.mv2" = false ∧
    filePathSchemaIssues false ⟨[⟨"file:///C:/proj", none⟩], true, true⟩
      "C:\\data\\..\\x" = [unsafePathMessage] ∧
    filePathSchemaIssues false ⟨[⟨"file:///C:/proj", none⟩], true, true⟩
      "C:\\Windows\\foo" = [unsafePathMessage] ∧
    filePathSchemaIssues false ⟨[⟨"file:///C:/proj", none⟩], true, true⟩
      "C:\\other\\f.mv2" = [unsafePathMessage] := by
  decide

/-- C9 (amended): whichever of the three safety categories fails, the
schema boundary rejects a non-empty, non-Linux-looking path with the same
single fixed message, which mentions only path traversal and system paths —
not root containment — and carries no category-specific remediation hint. -/
theorem schema_rejection_combined_message (win32 : Bool) (st : RootsState)
    (p : String) (hlen : p.length ≠ 0) (hlin : isLinuxPath p = false)
    (hrej : isPathSafe win32 st p = false) :
    filePathSchemaIssues win32 st p = [unsafePathMessage] := by
  simp [filePathSchemaIssues, hlin, hrej, Nat.lt_one_iff, hlen]

/-- Witness for the amended C9 on a concrete traversal path. -/
theorem schema_rejection_combined_witness :
    filePathSchemaIssues false ⟨[], false, false⟩ "C:\\data\\..\\x" =
      [unsafePathMessage] :=
  schema_rejection_combined_message false ⟨[], false, false⟩ "C:\\data\\..\\x"
    (by decide) (by decide) (by decide)

/-- C10: a successful result whose payload stringifies to the empty string,
only whitespace, `"null"`, or `"undefined"` is formatted as an
`isError=true` warning, and every other successful result is formatted with
`isError=false`. -/
theorem missing_output_warning (r : CliResult JsValue) (v : JsValue) (t : String)
    (hs : r.success = true) (hd : r.data = some v) (ht : stringifyJs v = some t) :
    ((formatToolResult r).isError = true ↔
      (t = "" ∨ t = "null" ∨ t = "undefined" ∨ trimStr t = "")) := by
  by_cases h1 : t = "" ∨ t = "null" ∨ t = "undefined" ∨ trimStr t = ""
  · have herr : (formatToolResult r).isError = true := by
      rcases h1 with h | h | h | h <;> simp [formatToolResult, hs, hd, ht, h]
    simp [herr, h1]
  · push_neg at h1
    obtain ⟨h1a, h1b, h1c, h1d⟩ := h1
    have herr : (formatToolResult r).isError = false := by
      simp only [formatToolResult, hs, hd, ht, if_true]
      simp [h1a, h1b, h1c, h1d]
      split_ifs <;> rfl
    simp [herr, h1a, h1b, h1c, h1d]

/-- Witness for C10: a whitespace-only payload yields the warning result. -/
theorem missing_output_witness :
    (formatToolResult { success := true,
                        data := some (JsValue.str "   "),
                        exitCode := 0 }).isError = true :=
  (missing_output_warning
      { success := true, data := some (JsValue.str "   "), exitCode := 0 }
      (JsValue.str "   ") "   " rfl rfl rfl).mpr
    (Or.inr (Or.inr (Or.inr (by decide))))

end Memvid
